import Mathlib

/-!
Shallow embedding of the fileseq library (src/fileseq/all.py): the frame-range
tokenizer (`_PATTERNS`), `FrameSet` construction and queries, the range
compactor `framesToFrameRange`, `padFrameRange`, and the `FileSequence`
descriptor layer built on `_SEQ_PATTERN`.  Python-level failures (exceptions)
are modelled with `Except PyErr`; Python's in-place `list.sort()` inside
`framesToFrameRange` is modelled by returning the post-call list alongside the
result.
-/

set_option maxRecDepth 4000
set_option linter.unusedVariables false

/-- Errors a Python-level run of the library can raise: the library's own
`ParseException`, plus the builtin exception kinds that the code can hit
(`ValueError` from `xrange` step 0 / `int()` / `list.index`, `TypeError` from
operations on `None`, `AttributeError` from attribute access on `None`,
`IndexError` from out-of-bounds list access, `KeyError` from dict lookup). -/
inductive PyErr where
  | parseException
  | valueError
  | typeError
  | attributeError
  | indexError
  | keyError
deriving DecidableEq, Repr

/-- Value list of Python 2 `xrange(a, b, step)` for `step ≠ 0` (empty for
`step = 0`; that case is diverted to an error by `pyRange`). -/
def pyRangeList (a b step : Int) : List Int :=
  if 0 < step then
    (List.range ((b - a + step - 1) / step).toNat).map
      (fun i : Nat => a + step * (i : Int))
  else if step < 0 then
    (List.range ((a - b - step - 1) / (-step)).toNat).map
      (fun i : Nat => a + step * (i : Int))
  else []

/-- Python 2 `xrange(a, b, step)`: raises `ValueError` when `step = 0`. -/
def pyRange (a b step : Int) : Except PyErr (List Int) :=
  if step = 0 then .error .valueError else .ok (pyRangeList a b step)

/-- Python `str.split(sep)` for a one-character separator: no collapsing of
empty fields, and the empty string yields one empty field. -/
def pySplit : List Char → Char → List (List Char)
  | [], _ => [[]]
  | c :: rest, sep =>
    if c = sep then [] :: pySplit rest sep
    else
      match pySplit rest sep with
      | h :: t => (c :: h) :: t
      | [] => [[c]]

/-- Numeric value of a list of decimal digit characters. -/
def digitsToNat (ds : List Char) : Nat :=
  ds.foldl (fun a c => a * 10 + (c.toNat - '0'.toNat)) 0

/-- Maximal-munch match of the regex fragment `\-?[0-9]+`: an optional minus
sign followed by a nonempty greedy digit run.  Returns the integer value
(`int()` of the matched text) and the unconsumed remainder. -/
def signedInt (cs : List Char) : Option (Int × List Char) :=
  match cs with
  | '-' :: rest =>
    let ds := rest.takeWhile Char.isDigit
    if ds.isEmpty then none
    else some (-(digitsToNat ds : Int), rest.dropWhile Char.isDigit)
  | _ =>
    let ds := cs.takeWhile Char.isDigit
    if ds.isEmpty then none
    else some ((digitsToNat ds : Int), cs.dropWhile Char.isDigit)

/-- Modifier of a stepped range token: the character class `[:xy]` of the third
pattern in `_PATTERNS`. -/
inductive SMod where
  | x
  | y
  | colon
deriving DecidableEq, Repr

/-- A successful match of one comma-separated part against `_PATTERNS`:
`(\-?[0-9]+)\-(\-?[0-9]+)` (closed range), `(\-?[0-9]+)` (single frame), or
`(\-?[0-9]+)\-(\-?[0-9]+)([:xy]{1})([0-9]+)` (stepped range). -/
inductive Token where
  | range (a b : Int)
  | single (n : Int)
  | stepped (a b : Int) (m : SMod) (chunk : Int)
deriving DecidableEq, Repr

/-- Match against `_PATTERNS[0]`: `^(\-?[0-9]+)\-(\-?[0-9]+)$`. -/
def pat0 (cs : List Char) : Option Token :=
  match signedInt cs with
  | none => none
  | some (a, r1) =>
    match r1 with
    | '-' :: r2 =>
      match signedInt r2 with
      | none => none
      | some (b, r3) => if r3.isEmpty then some (.range a b) else none
    | _ => none

/-- Match against `_PATTERNS[1]`: `^(\-?[0-9]+)$`. -/
def pat1 (cs : List Char) : Option Token :=
  match signedInt cs with
  | none => none
  | some (n, r1) => if r1.isEmpty then some (.single n) else none

/-- Match against `_PATTERNS[2]`: `^(\-?[0-9]+)\-(\-?[0-9]+)([:xy]{1})([0-9]+)$`. -/
def pat2 (cs : List Char) : Option Token :=
  match signedInt cs with
  | none => none
  | some (a, r1) =>
    match r1 with
    | '-' :: r2 =>
      match signedInt r2 with
      | none => none
      | some (b, r3) =>
        match r3 with
        | m :: r4 =>
          let md? : Option SMod :=
            if m = 'x' then some .x
            else if m = 'y' then some .y
            else if m = ':' then some .colon
            else none
          match md? with
          | none => none
          | some md =>
            let ds := r4.takeWhile Char.isDigit
            if ds.isEmpty then none
            else if (r4.dropWhile Char.isDigit).isEmpty then
              some (.stepped a b md (digitsToNat ds : Int))
            else none
        | [] => none
    | _ => none

/-- Try the patterns of `_PATTERNS` in order on one comma-separated part, as the
`FrameSet` constructor loop does. -/
def matchPart (cs : List Char) : Option Token :=
  match pat0 cs with
  | some t => some t
  | none =>
    match pat1 cs with
    | some t => some t
    | none => pat2 cs

/-- State of a `FrameSet` instance: the original range text `self.__frange`,
the membership index `self.__set`, and the insertion-ordered frame list
`self.__list`. -/
structure FrameSetState where
  frange : String
  set : Finset Int
  list : List Int
deriving DecidableEq

/-- Model of `FrameSet.__addFrames`: keep only the frames not already in the membership
index (membership tested against the pre-call index throughout), then add them
to both the index and the ordered list. -/
def addFrames (st : FrameSetState) (frames : List Int) : FrameSetState :=
  let f := frames.filter (fun x => decide (x ∉ st.set))
  { st with set := st.set ∪ f.toFinset, list := st.list ++ f }

/-- Model of `FrameSet.__handleMatch`: dispatch one matched token.  Note that when the
chunk of a stepped token is 0 the source builds a `ParseException` but does not
raise it, so execution falls through to the `xrange` calls. -/
def handleMatch (st : FrameSetState) : Token → Except PyErr FrameSetState
  | .range a b => (pyRange a (b + 1) 1).map (addFrames st)
  | .single n => .ok (addFrames st [n])
  | .stepped a b .x c => (pyRange a (b + 1) c).map (addFrames st)
  | .stepped a b .colon c =>
    (pyRangeList c 0 (-1)).foldlM
      (fun s g => (pyRange a (b + 1) g).map (addFrames s)) st
  | .stepped a b .y c =>
    (pyRange a (b + 1) c).bind fun bad =>
      (pyRange a (b + 1) 1).map fun all =>
        addFrames st (all.filter fun f => decide (f ∉ bad))

/-- Model of `FrameSet.__init__`: split the expression on commas, match each part
against `_PATTERNS` in order, and accumulate frames; an unmatched part raises
`ParseException`. -/
def FrameSet.mk (frange : String) : Except PyErr FrameSetState :=
  (pySplit frange.toList ',').foldlM
    (fun st part =>
      match matchPart part with
      | some t => handleMatch st t
      | none => .error .parseException)
    { frange := frange, set := ∅, list := [] }

/-- Model of `FrameSet.start`: `self.__list[0]`. -/
def FrameSet.start (st : FrameSetState) : Except PyErr Int :=
  match st.list with
  | [] => .error .indexError
  | x :: _ => .ok x

/-- Model of `FrameSet.end`: `self.__list[-1]` (renamed, `end` is a Lean keyword). -/
def FrameSet.endFrame (st : FrameSetState) : Except PyErr Int :=
  match st.list.getLast? with
  | none => .error .indexError
  | some x => .ok x

/-- Model of `FrameSet.hasFrame`: membership in `self.__set`. -/
def FrameSet.hasFrame (st : FrameSetState) (frame : Int) : Bool :=
  decide (frame ∈ st.set)

/-- Python list indexing `l[i]` with negative-index wrap-around. -/
def pyListGet (l : List Int) (i : Int) : Except PyErr Int :=
  let j := if i < 0 then i + l.length else i
  if 0 ≤ j ∧ j.toNat < l.length then .ok (l.getD j.toNat 0) else .error .indexError

/-- Model of `FrameSet.frame`: `self.__list[idx]`. -/
def FrameSet.frameAt (st : FrameSetState) (idx : Int) : Except PyErr Int :=
  pyListGet st.list idx

/-- Python `list.index`: position of the first occurrence, `ValueError` when
absent. -/
def FrameSet.index (st : FrameSetState) (frame : Int) : Except PyErr Nat :=
  match st.list.indexOf? frame with
  | none => .error .valueError
  | some i => .ok i

/-- Rendering of `format(n, "0Nd")`: decimal with the minus sign outside the
zero padding, total width `zfill`. -/
def zfmt (zfill : Nat) (n : Int) : String :=
  let s := toString n.natAbs
  if n < 0 then
    if zfill ≤ s.length + 1 then "-" ++ s
    else "-" ++ String.mk (List.replicate (zfill - 1 - s.length) '0') ++ s
  else
    if zfill ≤ s.length then s
    else String.mk (List.replicate (zfill - s.length) '0') ++ s

/-- The local `append` helper of `framesToFrameRange`: render one detected run
as a padded single number, a `start-endxchunk` stepped range, a `start-end`
plain range, or a `start,end` comma pair. -/
def appendRun (zfill : Nat) (start stop chunk : Int) (count : Nat) : String :=
  if count = 1 ∨ start = stop then zfmt zfill start
  else if 1 < chunk ∧ 2 < count then
    zfmt zfill start ++ "-" ++ zfmt zfill stop ++ "x" ++ toString chunk
  else if 2 < count then zfmt zfill start ++ "-" ++ zfmt zfill stop
  else zfmt zfill start ++ "," ++ zfmt zfill stop

/-- The `for num, frame in enumerate(frames)` loop of `framesToFrameRange`,
with its run state `(start, count)` and accumulated `result` strings.  The
loop advances `num` by one per iteration and stops at `frames.length`; the
structural `fuel` argument is kept equal to `frames.length - num` by every
call, so it only bounds that same iteration count.  Python's `frames[num-1]`
uses negative-index wrap-around at `num = 0` (that read is only reachable when
`frame ≠ start`); the `try`/`IndexError` around `frames[num+1]` appears as the
bounds test on `num + 1`, and its `break` ends the scan. -/
def ftfrScan (frames : List Int) (zfill : Nat) :
    Nat → Nat → Int → Nat → List String → List String
  | 0, _, _, _, result => result
  | fuel + 1, num, start, count, result =>
    if num < frames.length then
      let frame := frames.getD num 0
      if frame = start then ftfrScan frames zfill fuel (num + 1) start count result
      else
        let aFr := frames.getD (if num = 0 then frames.length - 1 else num - 1) 0
        let aChunk := frame - aFr
        if aChunk = 0 then ftfrScan frames zfill fuel (num + 1) start count result
        else
          let cnt := count + 1
          if num + 1 < frames.length then
            let cFr := frames.getD (num + 1) 0
            let bChunk := cFr - frame
            if aChunk = bChunk then
              ftfrScan frames zfill fuel (num + 1) start cnt result
            else if cnt = 2 ∧ bChunk = 1 then
              ftfrScan frames zfill fuel (num + 1) frame 1
                (result ++ [appendRun zfill start start 1 1])
            else
              ftfrScan frames zfill fuel (num + 1) cFr 1
                (result ++ [appendRun zfill start frame aChunk cnt])
          else result ++ [appendRun zfill start frame aChunk cnt]
    else result

/-- Ascending stable sort modelling Python's in-place `list.sort()` on
integers. -/
def pySort (l : List Int) : List Int := List.insertionSort (· ≤ ·) l

/-- Ascending sorted list of a `Finset`, modelling Python's
`sorted(list(self.__set))`: sorting is permutation-invariant, so it lifts to
the multiset quotient. -/
def sortedList (s : Finset Int) : List Int :=
  Quot.liftOn s.val (List.insertionSort (· ≤ ·)) fun l1 l2 h =>
    List.eq_of_perm_of_sorted
      (((List.perm_insertionSort _ l1).trans h).trans
        (List.perm_insertionSort _ l2).symm)
      (List.sorted_insertionSort _ l1) (List.sorted_insertionSort _ l2)

/-- Model of `framesToFrameRange(frames, sort=True, zfill=0)`.  A single-element list
returns `str(frames[0])` before any sorting or padding.  Otherwise the list is
sorted in place when `sort` is true (the second component of the result is the
argument list as left after the call), an empty list then raises `IndexError`
at `frames[0]`, and the run scan produces the comma-joined result. -/
def framesToFrameRange (frames : List Int) (sort : Bool) (zfill : Nat) :
    Except PyErr String × List Int :=
  if frames.length = 1 then (.ok (toString (frames.getD 0 0)), frames)
  else
    let frames2 := if sort then pySort frames else frames
    match frames2 with
    | [] => (.error .indexError, frames2)
    | f0 :: _ =>
      (.ok (String.intercalate ","
        (ftfrScan frames2 zfill frames2.length 0 f0 1 [])), frames2)

/-- Model of `FrameSet.invertedFrameRange`: sort a copy of the membership index, collect
every integer strictly between adjacent values that differ by more than 1, and
compact the collected gap list (empty string when there are no gaps). -/
def FrameSet.invertedFrameRange (st : FrameSetState) (zfill : Nat) :
    Except PyErr String :=
  let frames := sortedList st.set
  let result := (frames.zip frames.tail).foldl
    (fun acc p => if p.2 - p.1 = 1 then acc else acc ++ pyRangeList (p.1 + 1) p.2 1)
    []
  if result.isEmpty then .ok "" else (framesToFrameRange result true zfill).1

/-- Model of `FrameSet.normalize`: `FrameSet(framesToFrameRange(self.__list))`.  The
call hands the instance's own list to `framesToFrameRange`, which sorts it in
place, so the second component is the receiver as left after the call. -/
def FrameSet.normalize (st : FrameSetState) :
    Except PyErr FrameSetState × FrameSetState :=
  let r := framesToFrameRange st.list true 0
  (match r.1 with
   | .ok s => FrameSet.mk s
   | .error e => .error e,
   { st with list := r.2 })

/-- Python `str.zfill`: left-pad with zeros to the given width, keeping a
leading sign in front of the padding. -/
def pyZfill (s : String) (w : Nat) : String :=
  let cs := s.toList
  if w ≤ cs.length then s
  else
    match cs with
    | [] => String.mk (List.replicate w '0')
    | c :: rest =>
      if c = '+' ∨ c = '-' then
        String.mk (c :: (List.replicate (w - cs.length) '0' ++ rest))
      else String.mk (List.replicate (w - cs.length) '0' ++ cs)

/-- Model of `padFrameRange`: zero-fill each comma-separated piece literally; a piece
containing a dash has the text before the first dash and the text between the
first and second dash zero-filled separately. -/
def padFrameRange (frs : String) (zfill : Nat) : String :=
  String.intercalate ","
    ((pySplit frs.toList ',').map fun part =>
      if part.contains '-' then
        let pieces := pySplit part '-'
        pyZfill (String.mk (pieces.getD 0 [])) zfill ++ "-" ++
          pyZfill (String.mk (pieces.getD 1 [])) zfill
      else pyZfill (String.mk part) zfill)

/-- Model of `FrameSet.frameRange`: `padFrameRange(self.__frange, zfill)`, a literal
re-rendering of the original expression. -/
def FrameSet.frameRange (st : FrameSetState) (zfill : Nat) : String :=
  padFrameRange st.frange zfill

/-- Character class `[\:xy\-0-9,]` of the frame-range group in `_SEQ_PATTERN`. -/
def isRangeChar (c : Char) : Bool :=
  c == ':' || c == 'x' || c == 'y' || c == '-' || c == ',' || c.isDigit

/-- Character class `[\#\@]` of the padding group in `_SEQ_PATTERN`. -/
def isPadChar (c : Char) : Bool :=
  c == '#' || c == '@'

/-- Captured groups of a `_SEQ_PATTERN` match: directory prefix, basename,
frame-range text, padding characters, extension.  Groups that did not
participate in the match are `none`, exactly as `re` reports them. -/
structure SeqGroups where
  g1 : Option (List Char)
  g2 : Option (List Char)
  g3 : Option (List Char)
  g4 : Option (List Char)
  g5 : Option (List Char)
deriving DecidableEq

/-- Match of the tail alternative `(\.[^.]*$)` of `_SEQ_PATTERN`: a dot
followed by dot-free text reaching the end of the input. -/
def extGroup (rest : List Char) : Option (List Char) :=
  match rest with
  | '.' :: t => if t.contains '.' then none else some rest
  | _ => none

/-- Backtracking search for `(.+?)([\:xy\-0-9,]*)([\#\@]*)(?:(\.[^.]*$)|$)`
after the directory prefix: the lazy basename grows from one character, the
greedy range and padding groups shrink from their maximal runs, and the
extension alternative is preferred over the bare end-of-string.  `(.+?)`
cannot cross a newline. -/
def seqTail (g1 : Option (List Char)) (rest : List Char) : Option SeqGroups :=
  ((List.range rest.length).map (fun k => k + 1)).findSome? fun L =>
    let g2 := rest.take L
    if g2.contains '\n' then none
    else
      let rest2 := rest.drop L
      let maxR := (rest2.takeWhile isRangeChar).length
      (List.range (maxR + 1)).reverse.findSome? fun R =>
        let g3 := rest2.take R
        let rest3 := rest2.drop R
        let maxP := (rest3.takeWhile isPadChar).length
        (List.range (maxP + 1)).reverse.findSome? fun P =>
          let g4 := rest3.take P
          let rest4 := rest3.drop P
          match extGroup rest4 with
          | some e => some ⟨g1, some g2, some g3, some g4, some e⟩
          | none =>
            if rest4.isEmpty then some ⟨g1, some g2, some g3, some g4, none⟩
            else none

/-- Full `_SEQ_PATTERN` match, `^(.*/)?(?:$|(.+?)([\:xy\-0-9,]*)([\#\@]*)
(?:(\.[^.]*$)|$))`: the optional greedy directory prefix tries each slash from
the rightmost leftwards (its `.*` cannot cross a newline) and then absence;
after it, an empty remainder matches via `$` with groups 2-5 unset, otherwise
the tail alternative is searched. -/
def seqMatch (s : List Char) : Option SeqGroups :=
  let dirCands : List (Option Nat) :=
    (((List.range s.length).filter fun i =>
        s.getD i ' ' == '/' && (s.take i).all fun c => c != '\n').reverse.map
      some) ++ [none]
  dirCands.findSome? fun cand =>
    let g1 : Option (List Char) := cand.map fun i => s.take (i + 1)
    let rest := match cand with
      | some i => s.drop (i + 1)
      | none => s
    if rest.isEmpty then some ⟨g1, none, none, none, none⟩
    else seqTail g1 rest

/-- Weight of one padding character per the `_PADDING` dict; an unknown key
would raise `KeyError`. -/
def pyPaddingWeight (c : Char) : Option Nat :=
  if c = '#' then some 4 else if c = '@' then some 1 else none

/-- State of a `FileSequence` instance.  A successful constructor run always
leaves `self.__padding` a string (a `None` padding group raises `TypeError`
when `self.__zfill` is computed), while basename and extension stay `None`
when their groups did not participate. -/
structure FileSeqState where
  dir : String
  basename : Option String
  frameSet : Option FrameSetState
  padding : String
  ext : Option String
  zfill : Nat
deriving DecidableEq

/-- Model of `FileSequence.__init__`: match `_SEQ_PATTERN`, take the directory (empty
when absent), build the `FrameSet` when the range group is non-empty (its
`ParseException` propagates), then compute `self.__zfill` from the padding
characters — which raises `TypeError` when the padding group is `None`. -/
def FileSequence.mk (sequence : String) : Except PyErr FileSeqState :=
  match seqMatch sequence.toList with
  | none => .error .parseException
  | some g =>
    let dir := match g.g1 with
      | none => ""
      | some d => String.mk d
    (match g.g3 with
      | some r =>
        if r.isEmpty then Except.ok none else (FrameSet.mk (String.mk r)).map some
      | none => Except.ok (none : Option FrameSetState)).bind fun frameSet =>
    (match g.g4 with
      | some p => Except.ok (String.mk p)
      | none => Except.error PyErr.typeError).bind fun padding =>
    (padding.toList.foldlM
      (fun acc c =>
        match pyPaddingWeight c with
        | some w => Except.ok (acc + w)
        | none => Except.error PyErr.keyError) 0).map fun zfill =>
    { dir := dir, basename := g.g2.map String.mk, frameSet := frameSet,
      padding := padding, ext := g.g5.map String.mk, zfill := zfill }

/-- Argument of `FileSequence.frame`: a Python int or a Python string. -/
inductive PyVal where
  | int (n : Int)
  | str (s : String)

/-- Python `str()` of a `PyVal`. -/
def pyStr : PyVal → String
  | .int n => toString n
  | .str s => s

/-- Python `int()` of a `PyVal`: surrounding whitespace then an optional sign
and a nonempty digit run, otherwise `ValueError`. -/
def pyToInt : PyVal → Except PyErr Int
  | .int n => .ok n
  | .str s =>
    let t := ((s.toList.dropWhile Char.isWhitespace).reverse.dropWhile
      Char.isWhitespace).reverse
    match t with
    | '-' :: ds =>
      if !ds.isEmpty && ds.all Char.isDigit then .ok (-(digitsToNat ds : Int))
      else .error .valueError
    | '+' :: ds =>
      if !ds.isEmpty && ds.all Char.isDigit then .ok ((digitsToNat ds : Int))
      else .error .valueError
    | ds =>
      if !ds.isEmpty && ds.all Char.isDigit then .ok ((digitsToNat ds : Int))
      else .error .valueError

/-- Model of `FileSequence.frame`: a value that `int()` accepts is rendered as
`str(value).zfill(self.__zfill)`, anything else passes through unpadded; the
result is `dir + basename + zframe + ext`, raising `TypeError` when basename
or extension is `None` in the join. -/
def FileSequence.frame (fs : FileSeqState) (v : PyVal) : Except PyErr String :=
  let zframe := match pyToInt v with
    | .ok _ => pyZfill (pyStr v) fs.zfill
    | .error _ => pyStr v
  match fs.basename, fs.ext with
  | some b, some e => .ok (fs.dir ++ b ++ zframe ++ e)
  | _, _ => .error .typeError

/-- Model of `FileSequence.start`: delegates to the frame set; attribute access on
`None` raises `AttributeError`. -/
def FileSequence.start (fs : FileSeqState) : Except PyErr Int :=
  match fs.frameSet with
  | none => .error .attributeError
  | some st => FrameSet.start st

/-- Model of `FileSequence.end`: delegates to the frame set (renamed, `end` is a Lean
keyword); attribute access on `None` raises `AttributeError`. -/
def FileSequence.endFrame (fs : FileSeqState) : Except PyErr Int :=
  match fs.frameSet with
  | none => .error .attributeError
  | some st => FrameSet.endFrame st

/-- Model of `FileSequence.frameRange`: `self.__frameSet.frameRange(self.__zfill)`;
`AttributeError` on a `None` frame set. -/
def FileSequence.frameRange (fs : FileSeqState) : Except PyErr String :=
  match fs.frameSet with
  | none => .error .attributeError
  | some st => .ok (FrameSet.frameRange st fs.zfill)

/-- Model of `FileSequence.invertedFrameRange`: delegates with `self.__zfill`;
`AttributeError` on a `None` frame set. -/
def FileSequence.invertedFrameRange (fs : FileSeqState) : Except PyErr String :=
  match fs.frameSet with
  | none => .error .attributeError
  | some st => FrameSet.invertedFrameRange st fs.zfill

/-- Model of `FileSequence.index`: `self.frame(self.__frameSet[idx])`; subscripting
`None` raises `TypeError`. -/
def FileSequence.index (fs : FileSeqState) (idx : Int) : Except PyErr String :=
  match fs.frameSet with
  | none => .error .typeError
  | some st => (pyListGet st.list idx).bind fun f => FileSequence.frame fs (.int f)

/-- Model of `FileSequence.__iter__` collected into a list: `self.frame(f)` for each
frame; iterating `None` raises `TypeError`. -/
def FileSequence.iter (fs : FileSeqState) : Except PyErr (List String) :=
  match fs.frameSet with
  | none => .error .typeError
  | some st => st.list.mapM fun f => FileSequence.frame fs (.int f)

/-- Model of `FileSequence.__str__`: `dir + basename + str(frameSet or "") + padding +
ext`.  A `None` or empty frame set (falsy via `__len__`) contributes the empty
string, a populated one contributes its original `__frange` text; a `None`
basename or extension raises `TypeError` in the join. -/
def FileSequence.toStr (fs : FileSeqState) : Except PyErr String :=
  match fs.basename, fs.ext with
  | some b, some e =>
    let fsText := match fs.frameSet with
      | none => ""
      | some st => if st.list.length = 0 then "" else st.frange
    .ok (fs.dir ++ b ++ fsText ++ fs.padding ++ e)
  | _, _ => .error .typeError

/-- Success test for a modelled Python call. -/
def pyOk {α : Type} : Except PyErr α → Bool
  | .ok _ => true
  | .error _ => false

instance {ε α : Type} [DecidableEq ε] [DecidableEq α] :
    DecidableEq (Except ε α) := fun x y =>
  match x, y with
  | .ok a, .ok b =>
    if h : a = b then isTrue (by rw [h])
    else isFalse (fun hc => h (Except.ok.inj hc))
  | .error e, .error f =>
    if h : e = f then isTrue (by rw [h])
    else isFalse (fun hc => h (Except.error.inj hc))
  | .ok _, .error _ => isFalse (fun hc => Except.noConfusion hc)
  | .error _, .ok _ => isFalse (fun hc => Except.noConfusion hc)

/-- Invariant tying the two containers of a `FrameSet` together: the ordered
list holds no duplicate and the membership index holds exactly its elements. -/
def FrameSetInv (st : FrameSetState) : Prop :=
  st.list.Nodup ∧ st.set = st.list.toFinset

theorem pyRangeList_nodup (a b step : Int) : (pyRangeList a b step).Nodup := by
  unfold pyRangeList
  split_ifs with h1 h2
  · refine (List.nodup_range _).map ?_
    intro i j hij
    have hs : step ≠ 0 := ne_of_gt h1
    have h3 : step * (i : Int) = step * (j : Int) := add_left_cancel hij
    exact_mod_cast mul_left_cancel₀ hs h3
  · refine (List.nodup_range _).map ?_
    intro i j hij
    have hs : step ≠ 0 := ne_of_lt h2
    have h3 : step * (i : Int) = step * (j : Int) := add_left_cancel hij
    exact_mod_cast mul_left_cancel₀ hs h3
  · exact List.nodup_nil

theorem pyRange_ok {a b step : Int} {l : List Int}
    (h : pyRange a b step = .ok l) : l = pyRangeList a b step := by
  unfold pyRange at h
  by_cases hs : step = 0
  · rw [if_pos hs] at h
    exact Except.noConfusion h
  · rw [if_neg hs] at h
    exact (Except.ok.inj h).symm

theorem addFrames_inv (st : FrameSetState) (l : List Int)
    (h : FrameSetInv st) (hl : l.Nodup) : FrameSetInv (addFrames st l) := by
  obtain ⟨hn, hs⟩ := h
  constructor
  · refine List.Nodup.append hn (hl.filter _) ?_
    intro x hx hxf
    have hset : x ∉ st.set := by simpa using (List.of_mem_filter hxf)
    exact hset (hs ▸ List.mem_toFinset.mpr hx)
  · show st.set ∪ (l.filter fun x => decide (x ∉ st.set)).toFinset =
      (st.list ++ l.filter fun x => decide (x ∉ st.set)).toFinset
    rw [hs, List.toFinset_append]

theorem exceptFoldlM_inv {α : Type} (P : FrameSetState → Prop)
    (f : FrameSetState → α → Except PyErr FrameSetState)
    (hf : ∀ s x s2, P s → f s x = .ok s2 → P s2) :
    ∀ (l : List α) (s s2 : FrameSetState),
      P s → l.foldlM f s = .ok s2 → P s2 := by
  intro l
  induction l with
  | nil =>
    intro s s2 hp h
    simp only [List.foldlM_nil] at h
    exact (Except.ok.inj h) ▸ hp
  | cons a t ih =>
    intro s s2 hp h
    simp only [List.foldlM_cons] at h
    cases hfa : f s a with
    | error e =>
      rw [hfa] at h
      exact Except.noConfusion h
    | ok s1 =>
      rw [hfa] at h
      exact ih s1 s2 (hf s a s1 hp hfa) h

theorem handleMatch_inv (st : FrameSetState) (t : Token) (st2 : FrameSetState)
    (h : FrameSetInv st) (hm : handleMatch st t = .ok st2) : FrameSetInv st2 := by
  cases t with
  | range a b =>
    cases hr : pyRange a (b + 1) 1 with
    | error e => rw [handleMatch, hr] at hm; exact Except.noConfusion hm
    | ok l =>
      rw [handleMatch, hr] at hm
      have := Except.ok.inj hm
      subst this
      exact addFrames_inv st l h (pyRange_ok hr ▸ pyRangeList_nodup _ _ _)
  | single n =>
    rw [handleMatch] at hm
    have := Except.ok.inj hm
    subst this
    exact addFrames_inv st [n] h (List.nodup_singleton n)
  | stepped a b m c =>
    cases m with
    | x =>
      cases hr : pyRange a (b + 1) c with
      | error e => rw [handleMatch, hr] at hm; exact Except.noConfusion hm
      | ok l =>
        rw [handleMatch, hr] at hm
        have := Except.ok.inj hm
        subst this
        exact addFrames_inv st l h (pyRange_ok hr ▸ pyRangeList_nodup _ _ _)
    | colon =>
      rw [handleMatch] at hm
      refine exceptFoldlM_inv FrameSetInv _ ?_ _ st st2 h hm
      intro s g s2 hp hg
      cases hr : pyRange a (b + 1) g with
      | error e => rw [hr] at hg; exact Except.noConfusion hg
      | ok l =>
        rw [hr] at hg
        have := Except.ok.inj hg
        subst this
        exact addFrames_inv s l hp (pyRange_ok hr ▸ pyRangeList_nodup _ _ _)
    | y =>
      cases hr : pyRange a (b + 1) c with
      | error e => rw [handleMatch, hr] at hm; exact Except.noConfusion hm
      | ok bad =>
        cases hr2 : pyRange a (b + 1) 1 with
        | error e =>
          rw [handleMatch, hr, hr2] at hm
          exact Except.noConfusion hm
        | ok all =>
          rw [handleMatch, hr, hr2] at hm
          have := Except.ok.inj hm
          subst this
          refine addFrames_inv st _ h ?_
          exact List.Nodup.filter _ (pyRange_ok hr2 ▸ pyRangeList_nodup _ _ _)

/-- Example state for the C6 witness: the parse of `"1-5,3-7"`. -/
def c6Example : FrameSetState :=
  { frange := "1-5,3-7", set := {1, 2, 3, 4, 5, 6, 7},
    list := [1, 2, 3, 4, 5, 6, 7] }

/-- Example state for the C5 failing input: the parse of `"5,1,3"`. -/
def c5Example : FrameSetState :=
  { frange := "5,1,3", set := {5, 1, 3}, list := [5, 1, 3] }

/-- Example state for C10: the parse of `"/path/to/file.exr"`, which carries no
frame-range token. -/
def c10Example : FileSeqState :=
  { dir := "/path/to/", basename := some "file", frameSet := none,
    padding := "", ext := some ".exr", zfill := 0 }

/-- C6: every successfully constructed FrameSet has a membership index and an
insertion-ordered list of equal cardinality — no duplicate integer is ever
stored. -/
theorem fileseq_c6_unique (s : String) (st : FrameSetState)
    (h : FrameSet.mk s = .ok st) : st.set.card = st.list.length := by
  unfold FrameSet.mk at h
  have hinv : FrameSetInv st := by
    refine exceptFoldlM_inv FrameSetInv _ ?_ _ _ _ ⟨List.nodup_nil, by simp⟩ h
    intro s1 part s2 hp hm
    cases hmp : matchPart part with
    | some t =>
      rw [hmp] at hm
      exact handleMatch_inv s1 t s2 hp hm
    | none =>
      rw [hmp] at hm
      exact Except.noConfusion hm
  obtain ⟨hn, hs⟩ := hinv
  rw [hs]
  exact List.toFinset_card_of_nodup hn

/-- C6 witness: `FrameSet("1-5,3-7")` evaluates to a concrete state on which
the cardinality equality holds, with length 7 rather than 10. -/
theorem fileseq_c6_unique_witness :
    FrameSet.mk "1-5,3-7" = .ok c6Example ∧
    c6Example.set.card = c6Example.list.length ∧
    c6Example.list.length = 7 :=
  ⟨by decide, fileseq_c6_unique "1-5,3-7" c6Example (by decide), by decide⟩

/-- C2: a staggered token `start-end:chunk` with positive chunk is processed
exactly as the descending-stride sequence of `x`-tokens with strides
`chunk, chunk-1, …, 1` (each pass adding only frames not already present,
by `addFrames`), and the whole-expression example: `"1-100:4"` yields the same
ordered values as `"1-100x4,1-100x3,1-100x2,1-100"`. -/
theorem fileseq_c2_staggered :
    (∀ (st : FrameSetState) (a b c : Int), a ≤ b → 0 < c →
      handleMatch st (Token.stepped a b SMod.colon c) =
        ((List.range c.toNat).map fun i : Nat => c - (i : Int)).foldlM
          (fun s g => handleMatch s (Token.stepped a b SMod.x g)) st) ∧
    (FrameSet.mk "1-100:4").map FrameSetState.list =
      (FrameSet.mk "1-100x4,1-100x3,1-100x2,1-100").map FrameSetState.list := by
  constructor
  · intro st a b c hab hc
    have hlist : pyRangeList c 0 (-1) =
        (List.range c.toNat).map fun i : Nat => c - (i : Int) := by
      unfold pyRangeList
      rw [if_neg (by omega), if_pos (by omega)]
      have hcount : ((c - 0 - (-1) - 1) / (-(-1 : Int))).toNat = c.toNat := by
        norm_num
      rw [hcount]
      refine List.map_congr_left ?_
      intro i hi
      ring
    show (pyRangeList c 0 (-1)).foldlM
        (fun s g => (pyRange a (b + 1) g).map (addFrames s)) st = _
    rw [hlist]
    rfl
  · decide

/-- C2 witness: the staggered/descending-stride equivalence applied to the
concrete token `1-10:4`. -/
theorem fileseq_c2_staggered_witness :
    ((1 : Int) ≤ 10 ∧ (0 : Int) < 4) ∧
    handleMatch { frange := "", set := ∅, list := [] }
        (Token.stepped 1 10 SMod.colon 4) =
      ((List.range (4 : Int).toNat).map fun i : Nat => (4 : Int) - (i : Int)).foldlM
        (fun s g => handleMatch s (Token.stepped 1 10 SMod.x g))
        { frange := "", set := ∅, list := [] } :=
  ⟨⟨by norm_num, by norm_num⟩,
    fileseq_c2_staggered.1 _ 1 10 4 (by norm_num) (by norm_num)⟩


/-- C1: the run scan of `framesToFrameRange` silently drops the final frame
when a run boundary restarts the scan at the last element: the ascending
distinct list `[1, 2, 4]` compacts to `"1,2"`, losing the frame 4 (a
maximal-run rendering would give `"1,2,4"`), while the claim's two cited
examples do come out as stated. -/
theorem fileseq_c1_last_run_dropped :
    (framesToFrameRange [1, 2, 4] true 0).1 = .ok "1,2" ∧
    (Except.ok "1,2" : Except PyErr String) ≠ .ok "1,2,4" ∧
    (framesToFrameRange [1, 2, 3, 4, 5] true 0).1 = .ok "1-5" ∧
    (framesToFrameRange [1, 3, 5, 7] true 0).1 = .ok "1-7x2" := by
  refine ⟨by decide, by decide, by decide, by decide⟩

/-- C3: the inverted range of `FrameSet("0,3,5-6")` — whose sorted values
`[0, 3, 5, 6]` have gap integers 1, 2 (between 0 and 3) and 4 (between 3 and
5) — is `"1,2"`: the size-1 gap 4 is lost in the compaction step, so a gap
does not always appear in the inverted range.  A gap-free set does yield the
empty string. -/
theorem fileseq_c3_gap_lost :
    (FrameSet.mk "0,3,5-6").bind
        (fun st => FrameSet.invertedFrameRange st 0) = .ok "1,2" ∧
    (FrameSet.mk "0,3,5-6").map (fun st => sortedList st.set) =
      .ok [0, 3, 5, 6] ∧
    (Except.ok "1,2" : Except PyErr String) ≠ .ok "1,2,4" ∧
    (FrameSet.mk "1-5").bind
        (fun st => FrameSet.invertedFrameRange st 0) = .ok "" := by
  refine ⟨by decide, by decide, by decide, by decide⟩

/-- C4: a zero chunk never raises the library's `ParseException`, because the
constructed exception is not raised: `"1-10x0"` and `"1-10y0"` instead fail
with `xrange`'s `ValueError`, and `"1-10:0"` does not fail at all — it
constructs a FrameSet holding no frames. -/
theorem fileseq_c4_zero_chunk :
    FrameSet.mk "1-10x0" = .error .valueError ∧
    FrameSet.mk "1-10y0" = .error .valueError ∧
    FrameSet.mk "1-10:0" = .ok { frange := "1-10:0", set := ∅, list := [] } ∧
    (Except.error PyErr.valueError : Except PyErr FrameSetState) ≠
      .error .parseException := by
  refine ⟨by decide, by decide, by decide, by decide⟩

/-- C5: `normalize` mutates its receiver.  `FrameSet("5,1,3")` holds the list
`[5, 1, 3]`; `normalize` passes that very list to `framesToFrameRange`, whose
in-place sort leaves the receiver's list `[1, 3, 5]`, changing the observable
`start()` from 5 to 1. -/
theorem fileseq_c5_normalize_mutates :
    FrameSet.mk "5,1,3" = .ok c5Example ∧
    (FrameSet.normalize c5Example).2 ≠ c5Example ∧
    c5Example.list = [5, 1, 3] ∧
    (FrameSet.normalize c5Example).2.list = [1, 3, 5] ∧
    FrameSet.start c5Example = .ok 5 ∧
    FrameSet.start (FrameSet.normalize c5Example).2 = .ok 1 := by
  refine ⟨by decide, by decide, by decide, by decide, by decide, by decide⟩

/-- C7 counterexample: `framesToFrameRange([1,2,4,5])` is `"1,2,4,5"`, not the
claimed `"1-2,4-5"` — each length-2 step-1 run is rendered as a comma pair. -/
theorem fileseq_c7_counterexample :
    (framesToFrameRange [1, 2, 4, 5] true 0).1 = .ok "1,2,4,5" ∧
    (Except.ok "1,2,4,5" : Except PyErr String) ≠ .ok "1-2,4-5" := by
  refine ⟨by decide, by decide⟩

/-- C7 amended: compacting the sorted list `[1, 2, 4, 5]` returns
`"1,2,4,5"`, rendering each length-2 contiguous run as a comma-joined pair. -/
theorem fileseq_c7_pair_render :
    (framesToFrameRange [1, 2, 4, 5] true 0).1 = .ok "1,2,4,5" := by decide

/-- C8 counterexample: a single-element list is rendered unpadded —
`framesToFrameRange([7], zfill=4)` is `"7"`, not `"0007"`. -/
theorem fileseq_c8_counterexample :
    (framesToFrameRange [7] true 4).1 = .ok "7" ∧
    (Except.ok "7" : Except PyErr String) ≠ .ok "0007" := by
  refine ⟨by decide, by decide⟩

/-- C8 amended: for every single-element input list, every sort flag and every
pad width, `framesToFrameRange` returns `str(value)` — the plain unpadded
decimal string — bypassing run detection, sorting and padding. -/
theorem fileseq_c8_single_unpadded (n : Int) (sort : Bool) (zfill : Nat) :
    framesToFrameRange [n] sort zfill = (.ok (toString n), [n]) := by
  unfold framesToFrameRange
  simp

/-- C9: the sequence parsed from `"/path/to/file.1-5#.exr"` renders frame 3 as
`"/path/to/file.0003.exr"` (integer zero-padded to the pad width 4 and spliced
between `dir+base` and `ext`) and renders the non-integer token `"#"`
unpadded as `"/path/to/file.#.exr"`. -/
theorem fileseq_c9_frame_render :
    (FileSequence.mk "/path/to/file.1-5#.exr").bind
        (fun f => FileSequence.frame f (.int 3)) = .ok "/path/to/file.0003.exr" ∧
    (FileSequence.mk "/path/to/file.1-5#.exr").bind
        (fun f => FileSequence.frame f (.str "#")) = .ok "/path/to/file.#.exr" := by
  refine ⟨by decide, by decide⟩

/-- Example state for the C10 counterexample: the parse of `"file"`, a
descriptor with no frame-range token and also no extension. -/
def c10FileExample : FileSeqState :=
  { dir := "", basename := some "file", frameSet := none,
    padding := "", ext := none, zfill := 0 }

/-- C10 counterexample: the claim's universal fails on the code.  `"file"`
contains no frame-range token and parses successfully with a `None` frame set,
yet `frame(3)` and the string rendering raise `TypeError` (the extension is
`None` in the join) instead of succeeding; and `"/path/to/"` contains no
frame-range token yet construction itself raises `TypeError` (the padding
group is `None` in the zfill sum) instead of succeeding. -/
theorem fileseq_c10_counterexample :
    FileSequence.mk "file" = .ok c10FileExample ∧
    c10FileExample.frameSet = none ∧
    FileSequence.frame c10FileExample (.int 3) = .error .typeError ∧
    FileSequence.toStr c10FileExample = .error .typeError ∧
    FileSequence.mk "/path/to/" = .error .typeError := by
  refine ⟨by decide, rfl, rfl, rfl, by decide⟩

/-- C10 amended: for every FileSequence whose construction succeeded with a
`None` frame set, `start`, `end`, `frameRange` and `invertedFrameRange` raise
`AttributeError` and `index(i)` and iteration raise `TypeError` — none of the
`ParseException`/`ValueError`/`IndexError` kinds — and `frame(v)` and the
string rendering still succeed for every argument whenever the basename and
extension fields are both present (as they are for `"/path/to/file.exr"`). -/
theorem fileseq_c10_none_frameset (s : String) (fs : FileSeqState)
    (hmk : FileSequence.mk s = .ok fs) (hfs : fs.frameSet = none) :
    FileSequence.start fs = .error .attributeError ∧
    FileSequence.endFrame fs = .error .attributeError ∧
    FileSequence.frameRange fs = .error .attributeError ∧
    FileSequence.invertedFrameRange fs = .error .attributeError ∧
    (∀ i : Int, FileSequence.index fs i = .error .typeError) ∧
    FileSequence.iter fs = .error .typeError ∧
    (fs.basename.isSome = true ∧ fs.ext.isSome = true →
      (∀ v : PyVal, pyOk (FileSequence.frame fs v) = true) ∧
      pyOk (FileSequence.toStr fs) = true) := by
  refine ⟨?_, ?_, ?_, ?_, ?_, ?_, ?_⟩
  · simp [FileSequence.start, hfs]
  · simp [FileSequence.endFrame, hfs]
  · simp [FileSequence.frameRange, hfs]
  · simp [FileSequence.invertedFrameRange, hfs]
  · intro i
    simp [FileSequence.index, hfs]
  · simp [FileSequence.iter, hfs]
  · rintro ⟨hb, he⟩
    obtain ⟨b, hb2⟩ := Option.isSome_iff_exists.mp hb
    obtain ⟨e, he2⟩ := Option.isSome_iff_exists.mp he
    constructor
    · intro v
      simp [FileSequence.frame, hb2, he2, pyOk]
    · simp [FileSequence.toStr, hb2, he2, pyOk]

/-- C10 witness: the amended statement applied to `"/path/to/file.exr"`, whose
parse has a `None` frame set and both basename and extension present, so every
listed query fails with `AttributeError`/`TypeError` while `frame` and the
string rendering succeed. -/
theorem fileseq_c10_none_frameset_witness :
    (FileSequence.mk "/path/to/file.exr" = .ok c10Example ∧
      c10Example.frameSet = none) ∧
    FileSequence.start c10Example = .error .attributeError ∧
    FileSequence.endFrame c10Example = .error .attributeError ∧
    FileSequence.frameRange c10Example = .error .attributeError ∧
    FileSequence.invertedFrameRange c10Example = .error .attributeError ∧
    FileSequence.index c10Example 0 = .error .typeError ∧
    FileSequence.iter c10Example = .error .typeError ∧
    pyOk (FileSequence.frame c10Example (.int 3)) = true ∧
    pyOk (FileSequence.frame c10Example (.str "#")) = true ∧
    pyOk (FileSequence.toStr c10Example) = true := by
  have h := fileseq_c10_none_frameset "/path/to/file.exr" c10Example
    (by decide) rfl
  exact ⟨⟨by decide, rfl⟩, h.1, h.2.1, h.2.2.1, h.2.2.2.1, h.2.2.2.2.1 0,
    h.2.2.2.2.2.1, (h.2.2.2.2.2.2 ⟨rfl, rfl⟩).1 (.int 3),
    (h.2.2.2.2.2.2 ⟨rfl, rfl⟩).1 (.str "#"), (h.2.2.2.2.2.2 ⟨rfl, rfl⟩).2⟩
